import Mathlib

/-!
Verification of `gpu_watch.py`: a shallow embedding of the program's pure
core (telemetry parsing, idle classification, SMTP-configuration
resolution, and the polling/alerting loop of `main`) together with
theorems settling the specification claims.

Modelling conventions:
* Python strings are Lean `String`s; the Python primitives `str.strip`,
  `str.splitlines`, `str.split(",")` and `int(...)` are embedded on
  `List Char` (`pyStripL`, `pySplitlinesL`, `pySplitCommaL`, `pyInt?`).
  `str.splitlines` carries Python's full boundary set; the strip/int
  whitespace is its ASCII/Latin-1 part plus the Unicode line
  separators. The Unicode Zs spaces and the underscore digit grouping
  of Python's `int` are not modelled: an input using them fails the
  digit check, so it falls outside the theorems' hypotheses instead of
  being parsed differently from the program.
* Python `int` is unbounded, hence `Int`.
* A raised exception is modelled as `Option.none` / an explicit `crash`
  outcome; side effects of one check cycle of `main` are a trace of
  events (`Ev`): stdout lines, the stderr line, the terminal bell,
  the `_send_email` invocation and `time.sleep`.
* The external collaborators (`nvidia-smi`, the SMTP transport) are
  oracles: per-cycle streams of results supplied to the loop.
-/

/-- The whitespace characters stripped by Python `str.strip()`
(`str.isspace`), on its ASCII/Latin-1 range plus the two Unicode line
separators. -/
def isPySpace (c : Char) : Bool :=
  c == ' ' || c == '\t' || c == '\n' || c == '\r' || c == '\x0b' || c == '\x0c' ||
  c == '\x1c' || c == '\x1d' || c == '\x1e' || c == '\x1f' || c == '\x85' ||
  c == '\xa0' || c == '\u2028' || c == '\u2029'

/-- Python `s.strip()` on the character list of a string. -/
def pyStripL (s : List Char) : List Char :=
  ((s.dropWhile isPySpace).reverse.dropWhile isPySpace).reverse

/-- Python `s.splitlines()`: worker carrying the reversed current line.
The boundaries are Python's: `\n`, `\r`, `\r\n`, `\x0b` (VT), `\x0c`
(FF), `\x1c`–`\x1e` (FS/GS/RS), `\x85` (NEL), `\u2028`, `\u2029`. -/
def pySplitlinesGo (acc : List Char) : List Char → List (List Char)
  | [] => if acc.isEmpty then [] else [acc.reverse]
  | '\r' :: '\n' :: rest => acc.reverse :: pySplitlinesGo [] rest
  | '\r' :: rest => acc.reverse :: pySplitlinesGo [] rest
  | '\n' :: rest => acc.reverse :: pySplitlinesGo [] rest
  | '\x0b' :: rest => acc.reverse :: pySplitlinesGo [] rest
  | '\x0c' :: rest => acc.reverse :: pySplitlinesGo [] rest
  | '\x1c' :: rest => acc.reverse :: pySplitlinesGo [] rest
  | '\x1d' :: rest => acc.reverse :: pySplitlinesGo [] rest
  | '\x1e' :: rest => acc.reverse :: pySplitlinesGo [] rest
  | '\x85' :: rest => acc.reverse :: pySplitlinesGo [] rest
  | '\u2028' :: rest => acc.reverse :: pySplitlinesGo [] rest
  | '\u2029' :: rest => acc.reverse :: pySplitlinesGo [] rest
  | c :: rest => pySplitlinesGo (c :: acc) rest

/-- Python `s.splitlines()`, over its full set of line boundaries. -/
def pySplitlinesL (s : List Char) : List (List Char) :=
  pySplitlinesGo [] s

/-- Python `s.split(",")`: worker carrying the reversed current field. -/
def pySplitCommaGo (acc : List Char) : List Char → List (List Char)
  | [] => [acc.reverse]
  | ',' :: rest => acc.reverse :: pySplitCommaGo [] rest
  | c :: rest => pySplitCommaGo (c :: acc) rest

/-- Python `s.split(",")`; on the empty string it yields `[""]`. -/
def pySplitCommaL (s : List Char) : List (List Char) :=
  pySplitCommaGo [] s

/-- One-or-more decimal digits. -/
def isDigits (cs : List Char) : Bool :=
  !cs.isEmpty && cs.all Char.isDigit

/-- Value of a digit string. -/
def digitsToNat (cs : List Char) : Nat :=
  cs.foldl (fun a c => a * 10 + (c.toNat - '0'.toNat)) 0

/-- Python `int(s)`: strips whitespace, accepts an optional sign and
decimal digits, and raises `ValueError` (here: `none`) otherwise. -/
def pyInt? (s : List Char) : Option Int :=
  match pyStripL s with
  | '+' :: rest => if isDigits rest then some (digitsToNat rest) else none
  | '-' :: rest => if isDigits rest then some (-(digitsToNat rest : Int)) else none
  | t => if isDigits t then some (digitsToNat t) else none

/-- One telemetry reading, the dict built by `_parse_nvidia_smi`. -/
structure Gpu where
  index : Int
  util : Int
  mem_used : Int
  mem_total : Int
deriving DecidableEq

/-- `[p.strip() for p in line.split(",")]`. -/
def lineParts (line : List Char) : List (List Char) :=
  (pySplitCommaL line).map pyStripL

/-- The lines loop of `_parse_nvidia_smi`: a line whose comma-split has
length other than four is skipped (`continue`); on four fields the
`map(int, parts)` conversion either yields a reading or raises
(`none`). -/
def parseLines : List (List Char) → Option (List Gpu)
  | [] => some []
  | line :: rest =>
    match lineParts line with
    | [a, b, c, d] =>
      match pyInt? a, pyInt? b, pyInt? c, pyInt? d with
      | some i, some u, some m, some t =>
        (parseLines rest).map (fun gs => Gpu.mk i u m t :: gs)
      | _, _, _, _ => none
    | _ => parseLines rest

/-- `_parse_nvidia_smi(output)`: iterates over
`output.strip().splitlines()`. -/
def _parse_nvidia_smi (output : String) : Option (List Gpu) :=
  parseLines (pySplitlinesL (pyStripL output.data))

/-- `_is_gpu_idle(gpu, util_th, mem_th)`. -/
def _is_gpu_idle (gpu : Gpu) (util_th mem_th : Int) : Bool :=
  decide (gpu.util ≤ util_th) && decide (gpu.mem_used ≤ mem_th)

/-- The command-line arguments of `main` (`argparse` namespace). The
`interval` float carries no arithmetic, so it is modelled as a
rational. -/
structure Args where
  interval : Rat
  util_th : Int
  mem_th : Int
  once : Bool
  json : Bool
  email : Bool
  email_to : String
  smtp_host : String
  smtp_port : Int
  smtp_user : String
  smtp_pass : String
  smtp_sender : String
  smtp_ssl : Bool
  smtp_tls : Bool
deriving DecidableEq

/-- The `argparse` defaults of `main`. -/
def defaultArgs : Args where
  interval := 5
  util_th := 5
  mem_th := 500
  once := false
  json := false
  email := false
  email_to := ""
  smtp_host := ""
  smtp_port := 0
  smtp_user := ""
  smtp_pass := ""
  smtp_sender := ""
  smtp_ssl := false
  smtp_tls := false

/-- The environment variables `main` consults; `none` is an unset
variable (`os.getenv` then returns its default). -/
structure Env where
  SMTP_HOST : Option String
  SMTP_PORT : Option String
  SMTP_USER : Option String
  SMTP_PASS : Option String
  SMTP_SENDER : Option String
  SMTP_TO : Option String
deriving DecidableEq

/-- An environment with every variable unset. -/
def envEmpty : Env :=
  ⟨none, none, none, none, none, none⟩

/-- Python `a or b` on strings: the empty string is falsy. -/
def pyOr (a b : String) : String :=
  if a = "" then b else a

/-- `[r.strip() for r in s.split(",") if r.strip()]`. -/
def parseRecipients (s : String) : List String :=
  (((pySplitCommaL s.data).map pyStripL).filter (fun l => !l.isEmpty)).map
    (fun l => String.mk l)

/-- The SMTP settings resolved in the email branch of `main`. -/
structure Resolved where
  host : String
  port : Int
  user : String
  passwd : String
  sender : String
  recipients : List String
deriving DecidableEq

/-- `smtp_host = args.smtp_host or os.getenv("SMTP_HOST", "")`. -/
def resolveHost (args : Args) (env : Env) : String :=
  pyOr args.smtp_host (env.SMTP_HOST.getD "")

/-- `smtp_port = args.smtp_port or int(os.getenv("SMTP_PORT", "0") or 0)`:
a Python int is truthy when non-zero, and `int(...)` on a malformed
environment value raises (`none`). -/
def resolvePort? (cli : Int) (envPort : Option String) : Option Int :=
  if cli ≠ 0 then some cli
  else if envPort.getD "0" = "" then some 0
  else pyInt? (envPort.getD "0").data

/-- `smtp_user = args.smtp_user or os.getenv("SMTP_USER", "")`. -/
def resolveUser (args : Args) (env : Env) : String :=
  pyOr args.smtp_user (env.SMTP_USER.getD "")

/-- `smtp_pass = args.smtp_pass or os.getenv("SMTP_PASS", "")`. -/
def resolvePasswd (args : Args) (env : Env) : String :=
  pyOr args.smtp_pass (env.SMTP_PASS.getD "")

/-- `smtp_sender = args.smtp_sender or os.getenv("SMTP_SENDER", smtp_user)`:
the default handed to `os.getenv` is the already-resolved user. -/
def resolveSender (args : Args) (env : Env) : String :=
  pyOr args.smtp_sender (env.SMTP_SENDER.getD (resolveUser args env))

/-- `recipients = [r.strip() for r in (args.email_to or os.getenv("SMTP_TO", "")).split(",") if r.strip()]`. -/
def resolveRecipients (args : Args) (env : Env) : List String :=
  parseRecipients (pyOr args.email_to (env.SMTP_TO.getD ""))

/-- Lines 122–127 of `main`: each setting prefers the (truthy)
command-line value and falls back to the environment; `none` is the
`ValueError` of `int` on a malformed `SMTP_PORT`. -/
def resolveSmtp (args : Args) (env : Env) : Option Resolved :=
  match resolvePort? args.smtp_port env.SMTP_PORT with
  | none => none
  | some port =>
    some ⟨resolveHost args env, port, resolveUser args env,
      resolvePasswd args env, resolveSender args env, resolveRecipients args env⟩

/-- One observable side effect of a check cycle. -/
inductive Ev where
  | out (s : String)
  | err (s : String)
  | bell
  | mail (host : String) (port : Int) (user? : Option String)
      (passwd? : Option String) (sender : String) (recipients : List String)
      (subject : String) (body : String) (ssl : Bool) (tls : Bool)
  | sleepFor (t : Rat)
deriving DecidableEq

/-- Whether an event is an invocation of the mail transport
(`_send_email`). -/
def isMailEv : Ev → Bool
  | Ev.mail _ _ _ _ _ _ _ _ _ _ => true
  | _ => false

/-- How one check cycle of `main` ends. -/
inductive Outcome where
  | ret (code : Int)
  | crash
  | continueLoop
deriving DecidableEq

/-- `idle = [g for g in gpus if _is_gpu_idle(g, args.util_th, args.mem_th)]`. -/
def classifyIdle (args : Args) (gpus : List Gpu) : List Gpu :=
  gpus.filter (fun g => _is_gpu_idle g args.util_th args.mem_th)

/-- The per-device status line `f"GPU {...}: util={...}% mem={.../...} MB"`. -/
def gpuLine (g : Gpu) : String :=
  "GPU " ++ toString g.index ++ ": util=" ++ toString g.util ++ "% mem=" ++
    toString g.mem_used ++ "/" ++ toString g.mem_total ++ " MB"

/-- `json.dumps` of one reading dict (default separators). -/
def jsonGpu (g : Gpu) : String :=
  "\x7b\"index\": " ++ toString g.index ++ ", \"util\": " ++ toString g.util ++
    ", \"mem_used\": " ++ toString g.mem_used ++ ", \"mem_total\": " ++
    toString g.mem_total ++ "\x7d"

/-- `json.dumps` of a list of readings. -/
def jsonList (gs : List Gpu) : String :=
  "[" ++ String.intercalate ", " (gs.map jsonGpu) ++ "]"

/-- `json.dumps({"gpus": gpus, "idle": idle})`. -/
def jsonStatus (gpus idle : List Gpu) : String :=
  "\x7b\"gpus\": " ++ jsonList gpus ++ ", \"idle\": " ++ jsonList idle ++ "\x7d"

/-- The status report of a cycle: one JSON line under `--json`,
otherwise one line per parsed device. -/
def statusEvs (args : Args) (gpus idle : List Gpu) : List Ev :=
  if args.json then [Ev.out (jsonStatus gpus idle)]
  else gpus.map (fun g => Ev.out (gpuLine g))

/-- `idle_ids = ",".join(str(g["index"]) for g in idle)`. -/
def idleIds (idle : List Gpu) : String :=
  String.intercalate "," (idle.map (fun g => toString g.index))

/-- The alert line `f"ALERT: idle GPU(s) detected -> {idle_ids}"`. -/
def alertMsg (ids : String) : String :=
  "ALERT: idle GPU(s) detected -> " ++ ids

/-- The `_send_email(...)` call of `main`: `smtp_user`/`smtp_pass` are
passed as `smtp_user or None`, the subject carries the idle indices and
the body one status line per parsed device. -/
def mailEvOf (args : Args) (r : Resolved) (gpus idle : List Gpu) : Ev :=
  Ev.mail r.host r.port
    (if r.user = "" then none else some r.user)
    (if r.passwd = "" then none else some r.passwd)
    r.sender r.recipients
    ("GPU idle alert: " ++ idleIds idle)
    (String.intercalate "\n" (gpus.map gpuLine))
    args.smtp_ssl args.smtp_tls

/-- The email branch of `main` (lines 121–151), entered when idle
devices were found. Returns the events it emits and whether it raised
an unhandled exception (only `int` on a malformed `SMTP_PORT` does; a
failure of `_send_email` itself is caught). -/
def emailStep (args : Args) (env : Env) (gpus idle : List Gpu)
    (mailRes : Except String Unit) : List Ev × Bool :=
  if args.email then
    match resolveSmtp args env with
    | none => ([], true)
    | some r =>
      if r.host ≠ "" ∧ r.port ≠ 0 ∧ r.sender ≠ "" ∧ r.recipients ≠ [] then
        match mailRes with
        | Except.ok _ => ([mailEvOf args r gpus idle, Ev.out "Email alert sent."], false)
        | Except.error e =>
          ([mailEvOf args r gpus idle, Ev.out ("Email alert failed: " ++ e)], false)
      else ([Ev.out "Email alert skipped: missing SMTP config."], false)
  else ([], false)

/-- One iteration of the `while True` loop of `main`: the telemetry
oracle result stands for `_run_nvidia_smi()` (an `Except.error` is a
raised exception), the mail oracle for the outcome of `_send_email`.
The trace lists the cycle's events in program order; the final
`time.sleep` is emitted by the loop, not here. -/
def runCycle (args : Args) (env : Env) (tel : Except String String)
    (mailRes : Except String Unit) : List Ev × Outcome :=
  match tel with
  | Except.error e =>
    ([Ev.err ("ERROR: failed to run nvidia-smi: " ++ e)], Outcome.ret 2)
  | Except.ok output =>
    match _parse_nvidia_smi output with
    | none => ([], Outcome.crash)
    | some gpus =>
      let idle := classifyIdle args gpus
      let sEvs := statusEvs args gpus idle
      if idle = [] then
        (sEvs, if args.once then Outcome.ret 1 else Outcome.continueLoop)
      else
        let aEvs := [Ev.out (alertMsg (idleIds idle)), Ev.bell]
        let eStep := emailStep args env gpus idle mailRes
        if eStep.2 then (sEvs ++ aEvs ++ eStep.1, Outcome.crash)
        else (sEvs ++ aEvs ++ eStep.1,
          if args.once then Outcome.ret 0 else Outcome.continueLoop)

/-- How a bounded observation of the loop ends: `main` returned a code,
an exception escaped `main`, or the loop is still running when the
fuel runs out. -/
inductive RunRes where
  | returned (code : Int)
  | crashed
  | running
deriving DecidableEq

/-- The `while True` loop of `main` from cycle index `k` on, observed
for `fuel` cycles; a cycle that neither returns nor raises is followed
by `time.sleep(args.interval)`. -/
def mainLoopFrom (args : Args) (env : Env) (tels : Nat → Except String String)
    (mails : Nat → Except String Unit) : Nat → Nat → List Ev × RunRes
  | _, 0 => ([], RunRes.running)
  | k, fuel + 1 =>
    match runCycle args env (tels k) (mails k) with
    | (evs, Outcome.ret code) => (evs, RunRes.returned code)
    | (evs, Outcome.crash) => (evs, RunRes.crashed)
    | (evs, Outcome.continueLoop) =>
      let rest := mainLoopFrom args env tels mails (k + 1) fuel
      (evs ++ Ev.sleepFor args.interval :: rest.1, rest.2)

/-- The loop of `main` from its first cycle. -/
def mainLoop (args : Args) (env : Env) (tels : Nat → Except String String)
    (mails : Nat → Except String Unit) (fuel : Nat) : List Ev × RunRes :=
  mainLoopFrom args env tels mails 0 fuel

/-- The list of executed cycles (trace and outcome of each), observed
for `fuel` cycles from index `k`. -/
def cycleTraces (args : Args) (env : Env) (tels : Nat → Except String String)
    (mails : Nat → Except String Unit) : Nat → Nat → List (List Ev × Outcome)
  | _, 0 => []
  | k, fuel + 1 =>
    match runCycle args env (tels k) (mails k) with
    | (evs, Outcome.continueLoop) =>
      (evs, Outcome.continueLoop) :: cycleTraces args env tels mails (k + 1) fuel
    | c => [c]

/-- `main` returns (or an exception escapes) within some number of
cycles. -/
def loopHalts (args : Args) (env : Env) (tels : Nat → Except String String)
    (mails : Nat → Except String Unit) : Prop :=
  ∃ fuel, (mainLoop args env tels mails fuel).2 ≠ RunRes.running

/-- A line whose comma-split has exactly four fields, each accepted by
`int(...)`. -/
def goodLine (line : List Char) : Bool :=
  match lineParts line with
  | [a, b, c, d] =>
    (pyInt? a).isSome && (pyInt? b).isSome && (pyInt? c).isSome && (pyInt? d).isSome
  | _ => false

/-- A line that does not split into exactly four comma-separated
fields (the `continue` case of `_parse_nvidia_smi`). -/
def skipLine (line : List Char) : Bool :=
  (lineParts line).length ≠ 4

/-- The reading carried by a good line. -/
def lineGpu (line : List Char) : Gpu :=
  match lineParts line with
  | [a, b, c, d] =>
    ⟨(pyInt? a).getD 0, (pyInt? b).getD 0, (pyInt? c).getD 0, (pyInt? d).getD 0⟩
  | _ => ⟨0, 0, 0, 0⟩

/-- First character of a string. -/
def strHead (s : String) : Option Char :=
  s.data.head?

/-- A concrete configuration exercising the SMTP resolution. -/
def c10Args : Args :=
  { defaultArgs with email := true, smtp_host := "cli.example" }

/-- A concrete environment exercising the SMTP resolution. -/
def c10Env : Env :=
  { envEmpty with SMTP_PORT := some "2525", SMTP_USER := some "bob" }

/-- The settings `c10Args`/`c10Env` resolve to. -/
def c10Res : Resolved :=
  ⟨"cli.example", 2525, "bob", "", "bob", []⟩

/-- An event that reports the outcome of an email attempt: the
`"Email alert sent."` line or an `"Email alert failed: ..."` line. -/
def isEmailResultMsg : Ev → Bool
  | Ev.out s =>
    s == "Email alert sent." || "Email alert failed: ".data.isPrefixOf s.data
  | _ => false

/-- A configuration with email enabled and a full SMTP setup on the
command line. -/
def c3Args : Args :=
  { defaultArgs with
    email := true
    smtp_host := "mail.example"
    smtp_port := 25
    smtp_sender := "ops@example"
    email_to := "dev@example" }

/-- The settings `c3Args` resolves to in an empty environment. -/
def c3Res : Resolved :=
  ⟨"mail.example", 25, "", "", "ops@example", ["dev@example"]⟩

/-- A configuration with email enabled but no SMTP settings at all. -/
def c6Args : Args :=
  { defaultArgs with email := true }

/-- What `c6Args` resolves to in an empty environment: everything
missing. -/
def c6Res : Resolved :=
  ⟨"", 0, "", "", "", []⟩

/-- A configuration with email enabled and a complete SMTP setup. -/
def c6FullArgs : Args :=
  { defaultArgs with
    email := true
    smtp_host := "mail.example"
    smtp_port := 465
    smtp_sender := "ops@example"
    email_to := "dev@example" }

/-- The default configuration restricted to a single check. -/
def c7Args : Args :=
  { defaultArgs with once := true }

/-- A `--once` configuration with email enabled whose SMTP port comes
from a malformed environment variable. -/
def c8Args : Args :=
  { defaultArgs with
    once := true
    email := true
    smtp_host := "mail.example"
    smtp_sender := "ops@example"
    email_to := "dev@example" }

/-- An environment whose `SMTP_PORT` does not parse as an integer. -/
def c8Env : Env :=
  { envEmpty with SMTP_PORT := some "oops" }

/-- A plain `--once` configuration. -/
def c8wArgs : Args :=
  { defaultArgs with once := true }

/-- A telemetry stream that always yields one idle reading. -/
def c8Tels : Nat → Except String String :=
  fun _ => Except.ok "0, 0, 0, 16000"

/-- A telemetry stream that always raises. -/
def c8TelsErr : Nat → Except String String :=
  fun _ => Except.error "no smi"

/-- A mail oracle that always succeeds. -/
def c8Mails : Nat → Except String Unit :=
  fun _ => Except.ok ()

/-- A telemetry stream that always yields one idle reading. -/
def c4Tels : Nat → Except String String :=
  fun _ => Except.ok "0, 0, 0, 16000"

/-- A telemetry stream agreeing with `c4Tels` at cycle 0 only. -/
def c4TelsB : Nat → Except String String :=
  fun n => if n = 0 then Except.ok "0, 0, 0, 16000" else Except.error "gone"

/-- A mail oracle that always succeeds. -/
def c4Mails : Nat → Except String Unit :=
  fun _ => Except.ok ()

/-- The cycle both streams produce at index 0. -/
def c4Cycle : List Ev × Outcome :=
  runCycle defaultArgs envEmpty (Except.ok "0, 0, 0, 16000") (Except.ok ())

theorem str_data_inj {s t : String} (h : s.data = t.data) : s = t := by
  cases s; cases t; exact congrArg String.mk h

theorem str_append_cancel {a s t : String} (h : a ++ s = a ++ t) : s = t := by
  have h2 := congrArg String.data h
  rw [String.data_append, String.data_append] at h2
  exact str_data_inj (List.append_cancel_left h2)

theorem strHead_append {a b : String} {c : Char} (h : strHead a = some c) :
    strHead (a ++ b) = some c := by
  unfold strHead at h ⊢
  rw [String.data_append]
  cases hd : a.data with
  | nil => rw [hd] at h; simp at h
  | cons x xs => rw [hd] at h; simpa using h

theorem ne_of_strHead {a b : String} {c d : Char} (ha : strHead a = some c)
    (hb : strHead b = some d) (hcd : c ≠ d) : a ≠ b := by
  intro hab
  rw [hab, hb] at ha
  exact hcd (by simpa using ha.symm)

theorem alertMsg_head (s : String) : strHead (alertMsg s) = some 'A' :=
  strHead_append (by decide)

theorem alertMsg_inj {s t : String} (h : alertMsg s = alertMsg t) : s = t :=
  str_append_cancel h

theorem gpuLine_head (g : Gpu) : strHead (gpuLine g) = some 'G' := by
  unfold gpuLine
  repeat apply strHead_append
  decide

theorem jsonStatus_head (gpus idle : List Gpu) :
    strHead (jsonStatus gpus idle) = some '\x7b' := by
  unfold jsonStatus
  repeat apply strHead_append
  decide

theorem statusEvs_mem {args : Args} {gpus idle : List Gpu} {ev : Ev}
    (h : ev ∈ statusEvs args gpus idle) :
    ∃ s, ev = Ev.out s ∧ (strHead s = some 'G' ∨ strHead s = some '\x7b') := by
  unfold statusEvs at h
  split at h
  · simp at h
    exact ⟨_, h, Or.inr (jsonStatus_head gpus idle)⟩
  · rcases List.mem_map.mp h with ⟨g, _, rfl⟩
    exact ⟨_, rfl, Or.inl (gpuLine_head g)⟩

theorem emailStep_mem {args : Args} {env : Env} {gpus idle : List Gpu}
    {m : Except String Unit} {ev : Ev} (h : ev ∈ (emailStep args env gpus idle m).1) :
    isMailEv ev = true ∨ ∃ s, ev = Ev.out s ∧ strHead s = some 'E' := by
  unfold emailStep at h
  split at h
  · split at h
    · simp at h
    · split at h
      · cases m with
        | ok u =>
          simp at h
          rcases h with h | h
          · exact Or.inl (by rw [h]; rfl)
          · exact Or.inr ⟨_, h, by decide⟩
        | error e =>
          simp at h
          rcases h with h | h
          · exact Or.inl (by rw [h]; rfl)
          · exact Or.inr ⟨_, h, strHead_append (by decide)⟩
      · simp at h
        exact Or.inr ⟨_, h, by decide⟩
  · simp at h

theorem statusEvs_no_alert (args : Args) (gpus idle : List Gpu) (s : String) :
    Ev.out (alertMsg s) ∉ statusEvs args gpus idle := by
  intro h
  rcases statusEvs_mem h with ⟨t, he, hh⟩
  injection he with h2
  rcases hh with hh | hh
  · exact ne_of_strHead (alertMsg_head s) hh (by decide) h2
  · exact ne_of_strHead (alertMsg_head s) hh (by decide) h2

theorem statusEvs_no_bell (args : Args) (gpus idle : List Gpu) :
    Ev.bell ∉ statusEvs args gpus idle := by
  intro h
  rcases statusEvs_mem h with ⟨t, he, _⟩
  exact Ev.noConfusion he

theorem statusEvs_no_sleep (args : Args) (gpus idle : List Gpu) (t : Rat) :
    Ev.sleepFor t ∉ statusEvs args gpus idle := by
  intro h
  rcases statusEvs_mem h with ⟨s, he, _⟩
  exact Ev.noConfusion he

theorem statusEvs_no_mail (args : Args) (gpus idle : List Gpu) :
    (statusEvs args gpus idle).any isMailEv = false := by
  rw [List.any_eq_false]
  intro ev hev
  rcases statusEvs_mem hev with ⟨s, rfl, _⟩
  simp [isMailEv]

theorem emailStep_no_alert (args : Args) (env : Env) (gpus idle : List Gpu)
    (m : Except String Unit) (s : String) :
    Ev.out (alertMsg s) ∉ (emailStep args env gpus idle m).1 := by
  intro h
  rcases emailStep_mem h with hm | ⟨t, he, hh⟩
  · exact Bool.noConfusion hm
  · injection he with h2
    exact ne_of_strHead (alertMsg_head s) hh (by decide) h2

theorem emailStep_no_bell (args : Args) (env : Env) (gpus idle : List Gpu)
    (m : Except String Unit) :
    Ev.bell ∉ (emailStep args env gpus idle m).1 := by
  intro h
  rcases emailStep_mem h with hm | ⟨t, he, _⟩
  · exact Bool.noConfusion hm
  · exact Ev.noConfusion he

theorem emailStep_no_sleep (args : Args) (env : Env) (gpus idle : List Gpu)
    (m : Except String Unit) (t : Rat) :
    Ev.sleepFor t ∉ (emailStep args env gpus idle m).1 := by
  intro h
  rcases emailStep_mem h with hm | ⟨s, he, _⟩
  · exact Bool.noConfusion hm
  · exact Ev.noConfusion he

theorem runCycle_err (args : Args) (env : Env) (e : String)
    (m : Except String Unit) :
    runCycle args env (Except.error e) m =
      ([Ev.err ("ERROR: failed to run nvidia-smi: " ++ e)], Outcome.ret 2) := rfl

theorem runCycle_parse_none {out : String} (args : Args) (env : Env)
    (m : Except String Unit) (h : _parse_nvidia_smi out = none) :
    runCycle args env (Except.ok out) m = ([], Outcome.crash) := by
  simp [runCycle, h]

theorem runCycle_noidle {out : String} {gpus : List Gpu} (args : Args) (env : Env)
    (m : Except String Unit) (hp : _parse_nvidia_smi out = some gpus)
    (hi : classifyIdle args gpus = []) :
    runCycle args env (Except.ok out) m =
      (statusEvs args gpus [],
       if args.once then Outcome.ret 1 else Outcome.continueLoop) := by
  simp [runCycle, hp, hi]

theorem runCycle_idle {out : String} {gpus : List Gpu} (args : Args) (env : Env)
    (m : Except String Unit) (hp : _parse_nvidia_smi out = some gpus)
    (hi : classifyIdle args gpus ≠ []) :
    runCycle args env (Except.ok out) m =
      (statusEvs args gpus (classifyIdle args gpus) ++
        [Ev.out (alertMsg (idleIds (classifyIdle args gpus))), Ev.bell] ++
        (emailStep args env gpus (classifyIdle args gpus) m).1,
       if (emailStep args env gpus (classifyIdle args gpus) m).2 then Outcome.crash
       else if args.once then Outcome.ret 0 else Outcome.continueLoop) := by
  by_cases hc : (emailStep args env gpus (classifyIdle args gpus) m).2 <;>
    simp [runCycle, hp, hi, hc]

theorem cycle_no_sleep (args : Args) (env : Env) (tel : Except String String)
    (m : Except String Unit) (t : Rat) :
    Ev.sleepFor t ∉ (runCycle args env tel m).1 := by
  cases tel with
  | error e => simp [runCycle_err]
  | ok out =>
    cases hp : _parse_nvidia_smi out with
    | none => simp [runCycle_parse_none args env m hp]
    | some gpus =>
      by_cases hi : classifyIdle args gpus = []
      · rw [runCycle_noidle args env m hp hi]
        exact statusEvs_no_sleep args gpus [] t
      · rw [runCycle_idle args env m hp hi]
        intro h
        simp only [List.mem_append, List.mem_cons] at h
        rcases h with (h | h) | h
        · exact statusEvs_no_sleep _ _ _ t h
        · rcases h with h | h | h
          · exact Ev.noConfusion h
          · exact Ev.noConfusion h
          · simp at h
        · exact emailStep_no_sleep _ _ _ _ _ t h

theorem mainLoopFrom_sleep (args : Args) (env : Env)
    (tels : Nat → Except String String) (mails : Nat → Except String Unit) :
    ∀ fuel k t, Ev.sleepFor t ∈ (mainLoopFrom args env tels mails k fuel).1 →
      t = args.interval := by
  intro fuel
  induction fuel with
  | zero => intro k t h; simp [mainLoopFrom] at h
  | succ n ih =>
    intro k t h
    unfold mainLoopFrom at h
    split at h
    · rename_i evs code heq
      refine absurd ?_ (cycle_no_sleep args env (tels k) (mails k) t)
      rw [heq]
      exact h
    · rename_i evs heq
      refine absurd ?_ (cycle_no_sleep args env (tels k) (mails k) t)
      rw [heq]
      exact h
    · rename_i evs heq
      simp only [List.mem_append, List.mem_cons] at h
      rcases h with h | h | h
      · refine absurd ?_ (cycle_no_sleep args env (tels k) (mails k) t)
        rw [heq]
        exact h
      · injection h with h2
      · exact ih (k + 1) t h

theorem cycleTraces_get (args : Args) (env : Env)
    (tels : Nat → Except String String) (mails : Nat → Except String Unit) :
    ∀ fuel k i r, (cycleTraces args env tels mails k fuel).get? i = some r →
      r = runCycle args env (tels (k + i)) (mails (k + i)) := by
  intro fuel
  induction fuel with
  | zero => intro k i r h; simp [cycleTraces] at h
  | succ n ih =>
    intro k i r h
    unfold cycleTraces at h
    split at h
    · rename_i evs heq
      cases i with
      | zero =>
        simp only [List.get?_cons_zero, Option.some.injEq] at h
        rw [Nat.add_zero, heq]
        exact h.symm
      | succ j =>
        simp only [List.get?_cons_succ] at h
        have h2 := ih (k + 1) j r h
        rw [h2]
        congr 2 <;> omega
    · cases i with
      | zero =>
        simp only [List.get?_cons_zero, Option.some.injEq] at h
        rw [Nat.add_zero]
        exact h.symm
      | succ j => simp at h

theorem parseLines_good : ∀ ls : List (List Char),
    (∀ line ∈ ls, goodLine line = true ∨ skipLine line = true) →
    parseLines ls = some ((ls.filter goodLine).map lineGpu) := by
  intro ls
  induction ls with
  | nil => intro _; rfl
  | cons line rest ih =>
    intro h
    have hline := h line (List.mem_cons_self line rest)
    have ihr := ih (fun l hl => h l (List.mem_cons_of_mem line hl))
    rcases hp : lineParts line with _ | ⟨a, _ | ⟨b, _ | ⟨c, _ | ⟨d, _ | ⟨e, tl⟩⟩⟩⟩⟩
    · simp [parseLines, goodLine, hp, ihr]
    · simp [parseLines, goodLine, hp, ihr]
    · simp [parseLines, goodLine, hp, ihr]
    · simp [parseLines, goodLine, hp, ihr]
    · have hgood : goodLine line = true := by
        rcases hline with hg | hs
        · exact hg
        · exact absurd hs (by simp [skipLine, hp])
      rw [goodLine, hp] at hgood
      simp only [Bool.and_eq_true, Option.isSome_iff_exists] at hgood
      obtain ⟨⟨⟨⟨i, hi⟩, ⟨u, hu⟩⟩, ⟨m, hm⟩⟩, ⟨t, ht⟩⟩ := hgood
      have hgood2 : goodLine line = true := by simp [goodLine, hp, hi, hu, hm, ht]
      simp [parseLines, hp, hi, hu, hm, ht, ihr, hgood2, lineGpu]
    · simp [parseLines, goodLine, hp, ihr]

theorem once_no_continue (args : Args) (env : Env) (tel : Except String String)
    (m : Except String Unit) (h : args.once = true) :
    (runCycle args env tel m).2 ≠ Outcome.continueLoop := by
  cases tel with
  | error e => simp [runCycle_err]
  | ok out =>
    cases hp : _parse_nvidia_smi out with
    | none => simp [runCycle_parse_none args env m hp]
    | some gpus =>
      by_cases hi : classifyIdle args gpus = []
      · rw [runCycle_noidle args env m hp hi]
        simp [h]
      · rw [runCycle_idle args env m hp hi]
        by_cases hc : (emailStep args env gpus (classifyIdle args gpus) m).2 <;>
          simp [h, hc]

theorem alert_bell_mem {args : Args} {env : Env} {out : String} {gpus : List Gpu}
    {m : Except String Unit} (hp : _parse_nvidia_smi out = some gpus)
    (hi : classifyIdle args gpus ≠ []) :
    Ev.out (alertMsg (idleIds (classifyIdle args gpus))) ∈
        (runCycle args env (Except.ok out) m).1 ∧
      Ev.bell ∈ (runCycle args env (Except.ok out) m).1 := by
  rw [runCycle_idle args env m hp hi]
  constructor <;> simp

theorem cycle_no_alert {args : Args} {env : Env} {out : String} {gpus : List Gpu}
    {m : Except String Unit} (s : String) (hp : _parse_nvidia_smi out = some gpus)
    (hi : classifyIdle args gpus = []) :
    Ev.out (alertMsg s) ∉ (runCycle args env (Except.ok out) m).1 ∧
      Ev.bell ∉ (runCycle args env (Except.ok out) m).1 := by
  rw [runCycle_noidle args env m hp hi]
  exact ⟨statusEvs_no_alert args gpus [] s, statusEvs_no_bell args gpus []⟩

theorem cycle_alert_unique {args : Args} {env : Env} {out : String}
    {gpus : List Gpu} {m : Except String Unit} {s : String}
    (hp : _parse_nvidia_smi out = some gpus)
    (h : Ev.out (alertMsg s) ∈ (runCycle args env (Except.ok out) m).1) :
    s = idleIds (classifyIdle args gpus) := by
  by_cases hi : classifyIdle args gpus = []
  · exact absurd h (cycle_no_alert s hp hi).1
  · rw [runCycle_idle args env m hp hi] at h
    simp only [List.mem_append, List.mem_cons, List.mem_singleton] at h
    rcases h with (h | h) | h
    · exact absurd h (statusEvs_no_alert args gpus (classifyIdle args gpus) s)
    · rcases h with h | h
      · injection h with h2
        exact alertMsg_inj h2
      · rcases h with h | h
        · exact Ev.noConfusion h
        · simp at h
    · exact absurd h (emailStep_no_alert args env gpus (classifyIdle args gpus) m s)

/-- C1: a reading is classified idle by `_is_gpu_idle` if and only if
its utilization is at most `util_th` and its used memory is at most
`mem_th` (otherwise it is busy), and the idle list of a check cycle
holds exactly the parsed readings so classified. -/
theorem C1_idle_classification (g : Gpu) (util_th mem_th : Int) (args : Args)
    (gpus : List Gpu) :
    (_is_gpu_idle g util_th mem_th = true ↔ g.util ≤ util_th ∧ g.mem_used ≤ mem_th)
    ∧ (g ∈ classifyIdle args gpus ↔
        g ∈ gpus ∧ g.util ≤ args.util_th ∧ g.mem_used ≤ args.mem_th) := by
  constructor
  · simp [_is_gpu_idle]
  · simp [classifyIdle, List.mem_filter, _is_gpu_idle]

/-- C9: on an input each of whose lines either consists of exactly four
comma-separated integer fields (with surrounding whitespace) or does
not split into four comma-separated fields, `_parse_nvidia_smi` returns
one reading per four-field line, in input-line order, with the fields
of that line, silently skipping the other lines; the empty input
yields the empty list. -/
theorem C9_parse (output : String)
    (h : ∀ line ∈ pySplitlinesL (pyStripL output.data),
      goodLine line = true ∨ skipLine line = true) :
    _parse_nvidia_smi output =
        some (((pySplitlinesL (pyStripL output.data)).filter goodLine).map lineGpu)
      ∧ _parse_nvidia_smi "" = some [] :=
  ⟨parseLines_good _ h, rfl⟩

theorem C9_parse_witness :
    (∀ line ∈ pySplitlinesL (pyStripL "0, 3, 100, 16000\nbad\n1,96,15000,16000".data),
      goodLine line = true ∨ skipLine line = true)
    ∧ (_parse_nvidia_smi "0, 3, 100, 16000\nbad\n1,96,15000,16000" =
        some (((pySplitlinesL
            (pyStripL "0, 3, 100, 16000\nbad\n1,96,15000,16000".data)).filter
          goodLine).map lineGpu)
      ∧ _parse_nvidia_smi "" = some []) :=
  ⟨by decide, C9_parse "0, 3, 100, 16000\nbad\n1,96,15000,16000" (by decide)⟩

/-- C10: SMTP resolution prefers the command-line value (non-empty, or
non-zero for the port) for each of host, port, user, password, sender
and recipients, falling back to the corresponding environment
variable; the sender falls back to the resolved user when neither
`--smtp_sender` nor `SMTP_SENDER` is set. -/
theorem C10_smtp_resolution (args : Args) (env : Env) (r : Resolved)
    (h : resolveSmtp args env = some r) :
    r.host = (if args.smtp_host = "" then env.SMTP_HOST.getD "" else args.smtp_host)
    ∧ r.user = (if args.smtp_user = "" then env.SMTP_USER.getD "" else args.smtp_user)
    ∧ r.passwd = (if args.smtp_pass = "" then env.SMTP_PASS.getD "" else args.smtp_pass)
    ∧ (args.smtp_port ≠ 0 → r.port = args.smtp_port)
    ∧ (args.smtp_port = 0 → ∀ s n, env.SMTP_PORT = some s → s ≠ "" →
        pyInt? s.data = some n → r.port = n)
    ∧ (args.smtp_port = 0 → env.SMTP_PORT = none ∨ env.SMTP_PORT = some "" →
        r.port = 0)
    ∧ r.sender = (if args.smtp_sender = "" then env.SMTP_SENDER.getD r.user
        else args.smtp_sender)
    ∧ (args.smtp_sender = "" → env.SMTP_SENDER = none → r.sender = r.user)
    ∧ r.recipients = parseRecipients
        (if args.email_to = "" then env.SMTP_TO.getD "" else args.email_to) := by
  unfold resolveSmtp at h
  cases hq : resolvePort? args.smtp_port env.SMTP_PORT with
  | none => rw [hq] at h; cases h
  | some port =>
    rw [hq] at h
    injection h with h2
    subst h2
    refine ⟨rfl, rfl, rfl, ?_, ?_, ?_, rfl, ?_, rfl⟩
    · intro hnz
      unfold resolvePort? at hq
      rw [if_pos hnz] at hq
      injection hq with hq2
      exact hq2.symm
    · intro hz s n hs hne hn
      unfold resolvePort? at hq
      rw [if_neg (by simp [hz]), hs] at hq
      simp only [Option.getD_some] at hq
      rw [if_neg hne, hn] at hq
      injection hq with hq2
      exact hq2.symm
    · intro hz hcase
      have hval : resolvePort? args.smtp_port env.SMTP_PORT = some 0 := by
        rcases hcase with hc | hc <;>
          rw [resolvePort?, if_neg (by simp [hz]), hc] <;> decide
      rw [hval] at hq
      injection hq with hq2
      exact hq2.symm
    · intro hcli hes
      show pyOr args.smtp_sender (env.SMTP_SENDER.getD (resolveUser args env)) =
        resolveUser args env
      rw [pyOr, if_pos hcli, hes]
      rfl

theorem C10_smtp_resolution_witness :
    resolveSmtp c10Args c10Env = some c10Res
    ∧ c10Res.host = (if c10Args.smtp_host = "" then c10Env.SMTP_HOST.getD ""
        else c10Args.smtp_host) :=
  ⟨by decide, (C10_smtp_resolution c10Args c10Env c10Res (by decide)).1⟩

/-- C2: in a check cycle whose telemetry parses to `gpus`, the alert —
the `"ALERT: idle GPU(s) detected -> ..."` line plus the bell — is
raised exactly when at least one parsed device is classified idle, and
every alert line lists exactly the indices of the idle devices in the
order they were parsed. -/
theorem C2_alert_iff_idle (args : Args) (env : Env) (out : String)
    (gpus : List Gpu) (m : Except String Unit) (s : String)
    (hp : _parse_nvidia_smi out = some gpus) :
    (classifyIdle args gpus ≠ [] →
      Ev.out (alertMsg (idleIds (classifyIdle args gpus))) ∈
          (runCycle args env (Except.ok out) m).1
        ∧ Ev.bell ∈ (runCycle args env (Except.ok out) m).1)
    ∧ (classifyIdle args gpus = [] →
      Ev.out (alertMsg s) ∉ (runCycle args env (Except.ok out) m).1
        ∧ Ev.bell ∉ (runCycle args env (Except.ok out) m).1)
    ∧ (Ev.out (alertMsg s) ∈ (runCycle args env (Except.ok out) m).1 →
      s = idleIds (classifyIdle args gpus)) :=
  ⟨fun hi => alert_bell_mem hp hi,
   fun hi => cycle_no_alert s hp hi,
   fun h => cycle_alert_unique hp h⟩

theorem C2_alert_iff_idle_witness :
    _parse_nvidia_smi "0, 2, 120, 16000\n1, 97, 15000, 16000" =
        some [⟨0, 2, 120, 16000⟩, ⟨1, 97, 15000, 16000⟩]
    ∧ classifyIdle defaultArgs [⟨0, 2, 120, 16000⟩, ⟨1, 97, 15000, 16000⟩] ≠ []
    ∧ Ev.out (alertMsg (idleIds (classifyIdle defaultArgs
        [⟨0, 2, 120, 16000⟩, ⟨1, 97, 15000, 16000⟩]))) ∈
      (runCycle defaultArgs envEmpty
        (Except.ok "0, 2, 120, 16000\n1, 97, 15000, 16000") (Except.ok ())).1 :=
  ⟨by decide, by decide,
   ((C2_alert_iff_idle defaultArgs envEmpty "0, 2, 120, 16000\n1, 97, 15000, 16000"
      [⟨0, 2, 120, 16000⟩, ⟨1, 97, 15000, 16000⟩] (Except.ok ()) ""
      (by decide)).1 (by decide)).1⟩

theorem isPrefixOf_self_append (l t : List Char) : l.isPrefixOf (l ++ t) = true := by
  induction l with
  | nil => simp [List.isPrefixOf]
  | cons c cs ih => simp [List.isPrefixOf, ih]

theorem failedMsg_isResult (e : String) :
    isEmailResultMsg (Ev.out ("Email alert failed: " ++ e)) = true := by
  simp only [isEmailResultMsg]
  rw [String.data_append]
  simp [isPrefixOf_self_append]

theorem sentMsg_isResult : isEmailResultMsg (Ev.out "Email alert sent.") = true := by
  decide

theorem mailEvOf_not_result (args : Args) (r : Resolved) (gpus idle : List Gpu) :
    isEmailResultMsg (mailEvOf args r gpus idle) = false := rfl

theorem emailStep_snd_irrel (args : Args) (env : Env) (gpus idle : List Gpu)
    (m1 m2 : Except String Unit) :
    (emailStep args env gpus idle m1).2 = (emailStep args env gpus idle m2).2 := by
  by_cases he : args.email
  · cases hr : resolveSmtp args env with
    | none => simp [emailStep, he, hr]
    | some r =>
      by_cases hg : r.host ≠ "" ∧ r.port ≠ 0 ∧ r.sender ≠ "" ∧ r.recipients ≠ []
      · cases m1 <;> cases m2 <;> simp [emailStep, he, hr, hg]
      · simp [emailStep, he, hr, hg]
  · simp [emailStep, he]

theorem emailStep_filter_irrel (args : Args) (env : Env) (gpus idle : List Gpu)
    (m1 m2 : Except String Unit) :
    (emailStep args env gpus idle m1).1.filter (fun ev => !isEmailResultMsg ev) =
      (emailStep args env gpus idle m2).1.filter (fun ev => !isEmailResultMsg ev) := by
  by_cases he : args.email
  · cases hr : resolveSmtp args env with
    | none => simp [emailStep, he, hr]
    | some r =>
      by_cases hg : r.host ≠ "" ∧ r.port ≠ 0 ∧ r.sender ≠ "" ∧ r.recipients ≠ []
      · cases m1 <;> cases m2 <;>
          simp [emailStep, he, hr, hg, List.filter,
            mailEvOf_not_result, failedMsg_isResult, sentMsg_isResult]
      · simp [emailStep, he, hr, hg]
  · simp [emailStep, he]

theorem emailStep_attempt_err (args : Args) (env : Env) (gpus idle : List Gpu)
    (e : String) (r : Resolved) (hem : args.email = true)
    (hr : resolveSmtp args env = some r)
    (hg : r.host ≠ "" ∧ r.port ≠ 0 ∧ r.sender ≠ "" ∧ r.recipients ≠ []) :
    emailStep args env gpus idle (Except.error e) =
      ([mailEvOf args r gpus idle, Ev.out ("Email alert failed: " ++ e)], false) := by
  simp [emailStep, hem, hr, hg]

/-- C3: a failure of mail delivery never blocks or changes a check
cycle: with the same telemetry, a cycle whose `_send_email` raises ends
the same way as one whose send succeeds (same return/continue
decision), its trace differs only in the email-result line, and
whenever the send is actually attempted and raises, the cycle prints
`"Email alert failed: ..."` and still proceeds (or returns 0 under
`--once`). -/
theorem C3_mail_failure_harmless (args : Args) (env : Env) (out : String)
    (e : String) :
    (runCycle args env (Except.ok out) (Except.error e)).2 =
        (runCycle args env (Except.ok out) (Except.ok ())).2
    ∧ ((runCycle args env (Except.ok out) (Except.error e)).1.filter
          (fun ev => !isEmailResultMsg ev) =
        (runCycle args env (Except.ok out) (Except.ok ())).1.filter
          (fun ev => !isEmailResultMsg ev))
    ∧ (∀ gpus, _parse_nvidia_smi out = some gpus →
        classifyIdle args gpus ≠ [] → args.email = true →
        ∀ r, resolveSmtp args env = some r →
        r.host ≠ "" ∧ r.port ≠ 0 ∧ r.sender ≠ "" ∧ r.recipients ≠ [] →
        Ev.out ("Email alert failed: " ++ e) ∈
            (runCycle args env (Except.ok out) (Except.error e)).1
          ∧ (runCycle args env (Except.ok out) (Except.error e)).2 =
            (if args.once then Outcome.ret 0 else Outcome.continueLoop)) := by
  refine ⟨?_, ?_, ?_⟩
  · cases hp : _parse_nvidia_smi out with
    | none => rw [runCycle_parse_none args env _ hp, runCycle_parse_none args env _ hp]
    | some gpus =>
      by_cases hi : classifyIdle args gpus = []
      · rw [runCycle_noidle args env _ hp hi, runCycle_noidle args env _ hp hi]
      · rw [runCycle_idle args env _ hp hi, runCycle_idle args env _ hp hi]
        rw [emailStep_snd_irrel args env gpus (classifyIdle args gpus)
          (Except.error e) (Except.ok ())]
  · cases hp : _parse_nvidia_smi out with
    | none => rw [runCycle_parse_none args env _ hp, runCycle_parse_none args env _ hp]
    | some gpus =>
      by_cases hi : classifyIdle args gpus = []
      · rw [runCycle_noidle args env _ hp hi, runCycle_noidle args env _ hp hi]
      · rw [runCycle_idle args env _ hp hi, runCycle_idle args env _ hp hi]
        simp only [List.filter_append]
        rw [emailStep_filter_irrel args env gpus (classifyIdle args gpus)
          (Except.error e) (Except.ok ())]
  · intro gpus hp hi hem r hr hg
    have hstep := emailStep_attempt_err args env gpus (classifyIdle args gpus) e r hem hr hg
    constructor
    · rw [runCycle_idle args env _ hp hi, hstep]
      simp
    · rw [runCycle_idle args env _ hp hi, hstep]
      simp

theorem mainLoopFrom_ret (args : Args) (env : Env)
    (tels : Nat → Except String String) (mails : Nat → Except String Unit)
    (k fuel : Nat) (code : Int)
    (hc : (runCycle args env (tels k) (mails k)).2 = Outcome.ret code) :
    mainLoopFrom args env tels mails k (fuel + 1) =
      ((runCycle args env (tels k) (mails k)).1, RunRes.returned code) := by
  have h1 : mainLoopFrom args env tels mails k (fuel + 1) =
      match runCycle args env (tels k) (mails k) with
      | (evs, Outcome.ret c) => (evs, RunRes.returned c)
      | (evs, Outcome.crash) => (evs, RunRes.crashed)
      | (evs, Outcome.continueLoop) =>
        (evs ++ Ev.sleepFor args.interval ::
          (mainLoopFrom args env tels mails (k + 1) fuel).1,
         (mainLoopFrom args env tels mails (k + 1) fuel).2) := rfl
  rcases hcy : runCycle args env (tels k) (mails k) with ⟨evs, oc⟩
  rw [hcy] at hc h1
  simp only [] at hc
  subst hc
  rw [h1]

theorem mainLoopFrom_crash (args : Args) (env : Env)
    (tels : Nat → Except String String) (mails : Nat → Except String Unit)
    (k fuel : Nat)
    (hc : (runCycle args env (tels k) (mails k)).2 = Outcome.crash) :
    mainLoopFrom args env tels mails k (fuel + 1) =
      ((runCycle args env (tels k) (mails k)).1, RunRes.crashed) := by
  have h1 : mainLoopFrom args env tels mails k (fuel + 1) =
      match runCycle args env (tels k) (mails k) with
      | (evs, Outcome.ret c) => (evs, RunRes.returned c)
      | (evs, Outcome.crash) => (evs, RunRes.crashed)
      | (evs, Outcome.continueLoop) =>
        (evs ++ Ev.sleepFor args.interval ::
          (mainLoopFrom args env tels mails (k + 1) fuel).1,
         (mainLoopFrom args env tels mails (k + 1) fuel).2) := rfl
  rcases hcy : runCycle args env (tels k) (mails k) with ⟨evs, oc⟩
  rw [hcy] at hc h1
  simp only [] at hc
  subst hc
  rw [h1]

theorem mainLoopFrom_continue (args : Args) (env : Env)
    (tels : Nat → Except String String) (mails : Nat → Except String Unit)
    (k fuel : Nat)
    (hc : (runCycle args env (tels k) (mails k)).2 = Outcome.continueLoop) :
    mainLoopFrom args env tels mails k (fuel + 1) =
      ((runCycle args env (tels k) (mails k)).1 ++ Ev.sleepFor args.interval ::
        (mainLoopFrom args env tels mails (k + 1) fuel).1,
       (mainLoopFrom args env tels mails (k + 1) fuel).2) := by
  have h1 : mainLoopFrom args env tels mails k (fuel + 1) =
      match runCycle args env (tels k) (mails k) with
      | (evs, Outcome.ret c) => (evs, RunRes.returned c)
      | (evs, Outcome.crash) => (evs, RunRes.crashed)
      | (evs, Outcome.continueLoop) =>
        (evs ++ Ev.sleepFor args.interval ::
          (mainLoopFrom args env tels mails (k + 1) fuel).1,
         (mainLoopFrom args env tels mails (k + 1) fuel).2) := rfl
  rcases hcy : runCycle args env (tels k) (mails k) with ⟨evs, oc⟩
  rw [hcy] at hc h1
  simp only [] at hc
  subst hc
  rw [h1]

theorem C3_mail_failure_harmless_witness :
    (_parse_nvidia_smi "0, 0, 0, 16000" = some [⟨0, 0, 0, 16000⟩]
      ∧ classifyIdle c3Args [⟨0, 0, 0, 16000⟩] ≠ []
      ∧ c3Args.email = true
      ∧ resolveSmtp c3Args envEmpty = some c3Res
      ∧ (c3Res.host ≠ "" ∧ c3Res.port ≠ 0 ∧ c3Res.sender ≠ "" ∧
          c3Res.recipients ≠ []))
    ∧ (Ev.out ("Email alert failed: " ++ "boom") ∈
        (runCycle c3Args envEmpty (Except.ok "0, 0, 0, 16000")
          (Except.error "boom")).1
      ∧ (runCycle c3Args envEmpty (Except.ok "0, 0, 0, 16000")
          (Except.error "boom")).2 =
        (if c3Args.once then Outcome.ret 0 else Outcome.continueLoop)) :=
  ⟨⟨by decide, by decide, by decide, by decide, by decide⟩,
   (C3_mail_failure_harmless c3Args envEmpty "0, 0, 0, 16000" "boom").2.2
     [⟨0, 0, 0, 16000⟩] (by decide) (by decide) (by decide) c3Res (by decide)
     (by decide)⟩

theorem emailStep_mail_inv (args : Args) (env : Env) (gpus idle : List Gpu)
    (m : Except String Unit)
    (h : (emailStep args env gpus idle m).1.any isMailEv = true) :
    args.email = true ∧ ∃ r2, resolveSmtp args env = some r2 ∧
      r2.host ≠ "" ∧ r2.port ≠ 0 ∧ r2.sender ≠ "" ∧ r2.recipients ≠ [] := by
  by_cases he : args.email = true
  · cases hr : resolveSmtp args env with
    | none => simp [emailStep, he, hr] at h
    | some r2 =>
      by_cases hg : r2.host ≠ "" ∧ r2.port ≠ 0 ∧ r2.sender ≠ "" ∧ r2.recipients ≠ []
      · exact ⟨he, r2, rfl, hg⟩
      · simp [emailStep, he, hr, hg, isMailEv] at h
  · simp [emailStep, he] at h

theorem emailStep_skip (args : Args) (env : Env) (gpus idle : List Gpu)
    (m : Except String Unit) (r : Resolved) (hem : args.email = true)
    (hr : resolveSmtp args env = some r)
    (hg : ¬(r.host ≠ "" ∧ r.port ≠ 0 ∧ r.sender ≠ "" ∧ r.recipients ≠ [])) :
    emailStep args env gpus idle m =
      ([Ev.out "Email alert skipped: missing SMTP config."], false) := by
  simp [emailStep, hem, hr, hg]

theorem emailStep_snd_false (args : Args) (env : Env) (gpus idle : List Gpu)
    (m : Except String Unit) (hres : args.email = true → resolveSmtp args env ≠ none) :
    (emailStep args env gpus idle m).2 = false := by
  by_cases he : args.email = true
  · cases hr : resolveSmtp args env with
    | none => exact absurd hr (hres he)
    | some r =>
      by_cases hg : r.host ≠ "" ∧ r.port ≠ 0 ∧ r.sender ≠ "" ∧ r.recipients ≠ []
      · cases m <;> simp [emailStep, he, hr, hg]
      · simp [emailStep, he, hr, hg]
  · simp [emailStep, he]

/-- C6: in a cycle whose telemetry parses, the mail transport is
invoked only when email is enabled, at least one device is idle, and
the resolved host, port, sender and recipient list are all present
(truthy); when email is enabled and idle devices were found but some
of these settings is missing, the cycle prints the skip line and never
invokes the transport. -/
theorem C6_email_guard (args : Args) (env : Env) (out : String)
    (gpus : List Gpu) (m : Except String Unit) (r : Resolved)
    (hp : _parse_nvidia_smi out = some gpus) :
    ((runCycle args env (Except.ok out) m).1.any isMailEv = true →
      args.email = true ∧ classifyIdle args gpus ≠ [] ∧
      ∃ r2, resolveSmtp args env = some r2 ∧
        r2.host ≠ "" ∧ r2.port ≠ 0 ∧ r2.sender ≠ "" ∧ r2.recipients ≠ [])
    ∧ (args.email = true → classifyIdle args gpus ≠ [] →
        resolveSmtp args env = some r →
        ¬(r.host ≠ "" ∧ r.port ≠ 0 ∧ r.sender ≠ "" ∧ r.recipients ≠ []) →
        Ev.out "Email alert skipped: missing SMTP config." ∈
            (runCycle args env (Except.ok out) m).1
          ∧ (runCycle args env (Except.ok out) m).1.any isMailEv = false) := by
  constructor
  · intro h
    by_cases hi : classifyIdle args gpus = []
    · rw [runCycle_noidle args env m hp hi] at h
      rw [statusEvs_no_mail args gpus []] at h
      exact Bool.noConfusion h
    · rw [runCycle_idle args env m hp hi] at h
      simp only [List.any_append, List.any_cons, List.any_nil,
        statusEvs_no_mail, Bool.or_eq_true] at h
      rcases h with (h | h) | h
      · exact Bool.noConfusion h
      · rcases h with h | h
        · exact absurd h (by simp [isMailEv])
        · rcases h with h | h
          · exact absurd h (by simp [isMailEv])
          · exact Bool.noConfusion h
      · exact ⟨(emailStep_mail_inv args env gpus (classifyIdle args gpus) m h).1, hi,
          (emailStep_mail_inv args env gpus (classifyIdle args gpus) m h).2⟩
  · intro hem hi hr hg
    have hstep := emailStep_skip args env gpus (classifyIdle args gpus) m r hem hr hg
    constructor
    · rw [runCycle_idle args env m hp hi, hstep]
      simp
    · rw [runCycle_idle args env m hp hi, hstep]
      simp only [List.any_append, List.any_cons, List.any_nil,
        statusEvs_no_mail, Bool.or_eq_true]
      simp [isMailEv]

theorem C6_email_guard_witness :
    (_parse_nvidia_smi "0, 0, 0, 16000" = some [⟨0, 0, 0, 16000⟩]
      ∧ c6Args.email = true
      ∧ classifyIdle c6Args [⟨0, 0, 0, 16000⟩] ≠ []
      ∧ resolveSmtp c6Args envEmpty = some c6Res
      ∧ ¬(c6Res.host ≠ "" ∧ c6Res.port ≠ 0 ∧ c6Res.sender ≠ "" ∧
          c6Res.recipients ≠ []))
    ∧ (Ev.out "Email alert skipped: missing SMTP config." ∈
        (runCycle c6Args envEmpty (Except.ok "0, 0, 0, 16000") (Except.ok ())).1
      ∧ (runCycle c6Args envEmpty (Except.ok "0, 0, 0, 16000")
          (Except.ok ())).1.any isMailEv = false)
    ∧ ((runCycle c6FullArgs envEmpty (Except.ok "0, 0, 0, 16000")
          (Except.ok ())).1.any isMailEv = true
      ∧ (c6FullArgs.email = true ∧ classifyIdle c6FullArgs [⟨0, 0, 0, 16000⟩] ≠ [] ∧
          ∃ r2, resolveSmtp c6FullArgs envEmpty = some r2 ∧
            r2.host ≠ "" ∧ r2.port ≠ 0 ∧ r2.sender ≠ "" ∧ r2.recipients ≠ [])) :=
  ⟨⟨by decide, by decide, by decide, by decide, by decide⟩,
   (C6_email_guard c6Args envEmpty "0, 0, 0, 16000" [⟨0, 0, 0, 16000⟩]
      (Except.ok ()) c6Res (by decide)).2 (by decide) (by decide) (by decide)
      (by decide),
   ⟨by decide,
    (C6_email_guard c6FullArgs envEmpty "0, 0, 0, 16000" [⟨0, 0, 0, 16000⟩]
      (Except.ok ()) c6Res (by decide)).1 (by decide)⟩⟩

/-- C5: polling is at a fixed interval: every `time.sleep` the loop
performs waits exactly `args.interval` seconds, a cycle that neither
returns nor raises is followed by exactly one such sleep before the
next cycle, and the default interval is 5 seconds. -/
theorem C5_fixed_interval (args : Args) (env : Env)
    (tels : Nat → Except String String) (mails : Nat → Except String Unit)
    (fuel k fuel2 : Nat) (t : Rat) :
    (Ev.sleepFor t ∈ (mainLoop args env tels mails fuel).1 → t = args.interval)
    ∧ ((runCycle args env (tels k) (mails k)).2 = Outcome.continueLoop →
        mainLoopFrom args env tels mails k (fuel2 + 1) =
          ((runCycle args env (tels k) (mails k)).1 ++ Ev.sleepFor args.interval ::
            (mainLoopFrom args env tels mails (k + 1) fuel2).1,
           (mainLoopFrom args env tels mails (k + 1) fuel2).2))
    ∧ defaultArgs.interval = 5 :=
  ⟨fun h => mainLoopFrom_sleep args env tels mails fuel 0 t h,
   fun hc => mainLoopFrom_continue args env tels mails k fuel2 hc,
   rfl⟩

theorem C5_fixed_interval_witness :
    (Ev.sleepFor 5 ∈ (mainLoop defaultArgs envEmpty (fun _ => Except.ok "")
        (fun _ => Except.ok ()) 2).1
      ∧ (5 : Rat) = defaultArgs.interval)
    ∧ ((runCycle defaultArgs envEmpty (Except.ok "") (Except.ok ())).2 =
          Outcome.continueLoop
      ∧ mainLoopFrom defaultArgs envEmpty (fun _ => Except.ok "")
          (fun _ => Except.ok ()) 0 1 =
        ((runCycle defaultArgs envEmpty (Except.ok "") (Except.ok ())).1 ++
          Ev.sleepFor defaultArgs.interval ::
            (mainLoopFrom defaultArgs envEmpty (fun _ => Except.ok "")
              (fun _ => Except.ok ()) 1 0).1,
         (mainLoopFrom defaultArgs envEmpty (fun _ => Except.ok "")
            (fun _ => Except.ok ()) 1 0).2)) :=
  ⟨⟨by decide,
    (C5_fixed_interval defaultArgs envEmpty (fun _ => Except.ok "")
      (fun _ => Except.ok ()) 2 0 0 5).1 (by decide)⟩,
   ⟨by decide,
    (C5_fixed_interval defaultArgs envEmpty (fun _ => Except.ok "")
      (fun _ => Except.ok ()) 2 0 0 5).2.1 (by decide)⟩⟩

theorem loop_keeps_running : ∀ fuel k,
    (mainLoopFrom defaultArgs envEmpty (fun _ => Except.ok "")
      (fun _ => Except.ok ()) k fuel).2 = RunRes.running := by
  intro fuel
  induction fuel with
  | zero => intro k; rfl
  | succ n ih =>
    intro k
    have h2 := mainLoopFrom_continue defaultArgs envEmpty (fun _ => Except.ok "")
      (fun _ => Except.ok ()) k n
      (by show (runCycle defaultArgs envEmpty (Except.ok "") (Except.ok ())).2 =
            Outcome.continueLoop
          decide)
    rw [h2]
    exact ih (k + 1)

/-- C7 counterexample: the claim "for every configuration the loop
performs a bounded number of cycles and then returns" is false: under
the default configuration (`--once` not given) with telemetry that
always succeeds, `main` never returns — no amount of fuel ends the
loop. -/
theorem C7_bounded_loop_counterexample :
    ¬ loopHalts defaultArgs envEmpty (fun _ => Except.ok "")
      (fun _ => Except.ok ()) := by
  rintro ⟨fuel, hne⟩
  exact hne (loop_keeps_running fuel 0)

/-- C7 (amended): with `--once` the loop finishes after its single
check cycle (returning, or propagating an exception); without
`--once` the loop is not bounded — `loop_keeps_running` exhibits a
run that never ends. -/
theorem C7_once_bounded (args : Args) (env : Env)
    (tels : Nat → Except String String) (mails : Nat → Except String Unit)
    (h : args.once = true) : loopHalts args env tels mails := by
  refine ⟨1, ?_⟩
  have hnc := once_no_continue args env (tels 0) (mails 0) h
  rcases hcy : (runCycle args env (tels 0) (mails 0)).2 with code | _ | _
  · rw [show mainLoop args env tels mails 1 = mainLoopFrom args env tels mails 0 1
      from rfl]
    rw [mainLoopFrom_ret args env tels mails 0 0 code hcy]
    simp
  · rw [show mainLoop args env tels mails 1 = mainLoopFrom args env tels mails 0 1
      from rfl]
    rw [mainLoopFrom_crash args env tels mails 0 0 hcy]
    simp
  · exact absurd hcy hnc

theorem C7_once_bounded_witness :
    c7Args.once = true
    ∧ loopHalts c7Args envEmpty (fun _ => Except.ok "") (fun _ => Except.ok ()) :=
  ⟨rfl, C7_once_bounded c7Args envEmpty (fun _ => Except.ok "")
    (fun _ => Except.ok ()) rfl⟩

/-- C8 counterexample: with `--once`, email enabled and a malformed
`SMTP_PORT` environment value, a cycle that does find an idle GPU dies
in `int(os.getenv("SMTP_PORT", "0") or 0)` instead of returning 0, so
"returns 0 iff the single check classifies at least one GPU as idle"
fails as stated. -/
theorem C8_exit_codes_counterexample :
    c8Args.once = true
    ∧ _parse_nvidia_smi "0, 0, 0, 16000" = some [⟨0, 0, 0, 16000⟩]
    ∧ classifyIdle c8Args [⟨0, 0, 0, 16000⟩] ≠ []
    ∧ (mainLoop c8Args c8Env (fun _ => Except.ok "0, 0, 0, 16000")
        (fun _ => Except.ok ()) 1).2 = RunRes.crashed
    ∧ ¬((mainLoop c8Args c8Env (fun _ => Except.ok "0, 0, 0, 16000")
          (fun _ => Except.ok ()) 1).2 = RunRes.returned 0 ↔
        classifyIdle c8Args [⟨0, 0, 0, 16000⟩] ≠ []) := by
  decide

/-- C8 (amended): provided the cycle itself does not raise — when email
is enabled, SMTP resolution succeeds — a `--once` run whose telemetry
parses returns 0 iff at least one GPU is classified idle and 1 iff
none is; and in any mode a telemetry failure makes the cycle print
only the stderr error line (no GPU status) and `main` return 2. -/
theorem C8_exit_codes (args : Args) (env : Env)
    (tels : Nat → Except String String) (mails : Nat → Except String Unit)
    (out : String) (gpus : List Gpu) (e : String) :
    (args.once = true → tels 0 = Except.ok out →
      _parse_nvidia_smi out = some gpus →
      (args.email = true → resolveSmtp args env ≠ none) →
      ((mainLoop args env tels mails 1).2 = RunRes.returned 0 ↔
        classifyIdle args gpus ≠ [])
      ∧ ((mainLoop args env tels mails 1).2 = RunRes.returned 1 ↔
        classifyIdle args gpus = []))
    ∧ (∀ m, runCycle args env (Except.error e) m =
        ([Ev.err ("ERROR: failed to run nvidia-smi: " ++ e)], Outcome.ret 2))
    ∧ (tels 0 = Except.error e → ∀ fuel,
        mainLoop args env tels mails (fuel + 1) =
          ([Ev.err ("ERROR: failed to run nvidia-smi: " ++ e)],
           RunRes.returned 2)) := by
  refine ⟨?_, fun m => runCycle_err args env e m, ?_⟩
  · intro honce htel hp hres
    by_cases hi : classifyIdle args gpus = []
    · have hcy : (runCycle args env (tels 0) (mails 0)).2 = Outcome.ret 1 := by
        rw [htel, runCycle_noidle args env (mails 0) hp hi]
        simp [honce]
      rw [show mainLoop args env tels mails 1 =
          mainLoopFrom args env tels mails 0 1 from rfl,
        mainLoopFrom_ret args env tels mails 0 0 1 hcy]
      constructor <;> simp [hi]
    · have hsnd := emailStep_snd_false args env gpus (classifyIdle args gpus)
        (mails 0) hres
      have hcy : (runCycle args env (tels 0) (mails 0)).2 = Outcome.ret 0 := by
        rw [htel, runCycle_idle args env (mails 0) hp hi]
        simp [hsnd, honce]
      rw [show mainLoop args env tels mails 1 =
          mainLoopFrom args env tels mails 0 1 from rfl,
        mainLoopFrom_ret args env tels mails 0 0 0 hcy]
      constructor <;> simp [hi]
  · intro htel fuel
    have hcy : (runCycle args env (tels 0) (mails 0)).2 = Outcome.ret 2 := by
      rw [htel, runCycle_err]
    rw [show mainLoop args env tels mails (fuel + 1) =
        mainLoopFrom args env tels mails 0 (fuel + 1) from rfl,
      mainLoopFrom_ret args env tels mails 0 fuel 2 hcy, htel, runCycle_err]

theorem C8_exit_codes_witness :
    (c8wArgs.once = true
      ∧ c8Tels 0 = Except.ok "0, 0, 0, 16000"
      ∧ _parse_nvidia_smi "0, 0, 0, 16000" = some [⟨0, 0, 0, 16000⟩]
      ∧ (c8wArgs.email = true → resolveSmtp c8wArgs envEmpty ≠ none)
      ∧ ((mainLoop c8wArgs envEmpty c8Tels c8Mails 1).2 = RunRes.returned 0 ↔
          classifyIdle c8wArgs [⟨0, 0, 0, 16000⟩] ≠ [])
      ∧ ((mainLoop c8wArgs envEmpty c8Tels c8Mails 1).2 = RunRes.returned 1 ↔
          classifyIdle c8wArgs [⟨0, 0, 0, 16000⟩] = []))
    ∧ (c8TelsErr 0 = Except.error "no smi"
      ∧ mainLoop c8wArgs envEmpty c8TelsErr c8Mails 1 =
          ([Ev.err ("ERROR: failed to run nvidia-smi: " ++ "no smi")],
           RunRes.returned 2)) :=
  ⟨⟨rfl, rfl, by decide, by decide,
    ((C8_exit_codes c8wArgs envEmpty c8Tels c8Mails "0, 0, 0, 16000"
      [⟨0, 0, 0, 16000⟩] "x").1 rfl rfl (by decide) (by decide)).1,
    ((C8_exit_codes c8wArgs envEmpty c8Tels c8Mails "0, 0, 0, 16000"
      [⟨0, 0, 0, 16000⟩] "x").1 rfl rfl (by decide) (by decide)).2⟩,
   ⟨rfl,
    (C8_exit_codes c8wArgs envEmpty c8TelsErr c8Mails "" [] "no smi").2.2 rfl 0⟩⟩

/-- C4: alerting keeps no state across cycles: the i-th executed cycle
of a run is a function of the configuration and the i-th telemetry and
mail results alone — two runs agreeing there agree on that cycle's
whole trace (classification, status report, alert) and outcome, no
matter what earlier cycles observed; and every cycle whose telemetry
parses with a non-empty idle set raises a fresh alert. -/
theorem C4_stateless (args : Args) (env : Env)
    (tels tels' : Nat → Except String String)
    (mails mails' : Nat → Except String Unit) (fuel fuel' i : Nat)
    (r r' : List Ev × Outcome) (out : String) (gpus : List Gpu) :
    ((cycleTraces args env tels mails 0 fuel).get? i = some r →
      (cycleTraces args env tels' mails' 0 fuel').get? i = some r' →
      tels i = tels' i → mails i = mails' i → r = r')
    ∧ ((cycleTraces args env tels mails 0 fuel).get? i = some r →
      tels i = Except.ok out → _parse_nvidia_smi out = some gpus →
      classifyIdle args gpus ≠ [] →
      Ev.out (alertMsg (idleIds (classifyIdle args gpus))) ∈ r.1
        ∧ Ev.bell ∈ r.1) := by
  constructor
  · intro h1 h2 ht hm
    have e1 := cycleTraces_get args env tels mails fuel 0 i r h1
    have e2 := cycleTraces_get args env tels' mails' fuel' 0 i r' h2
    simp only [Nat.zero_add] at e1 e2
    rw [e1, e2, ht, hm]
  · intro h1 ht hp hi
    have e1 := cycleTraces_get args env tels mails fuel 0 i r h1
    simp only [Nat.zero_add] at e1
    rw [e1, ht]
    exact alert_bell_mem hp hi

theorem C4_stateless_witness :
    ((cycleTraces defaultArgs envEmpty c4Tels c4Mails 0 1).get? 0 = some c4Cycle
      ∧ (cycleTraces defaultArgs envEmpty c4TelsB c4Mails 0 2).get? 0 = some c4Cycle
      ∧ c4Tels 0 = c4TelsB 0
      ∧ c4Mails 0 = c4Mails 0
      ∧ c4Cycle = c4Cycle)
    ∧ (c4Tels 0 = Except.ok "0, 0, 0, 16000"
      ∧ _parse_nvidia_smi "0, 0, 0, 16000" = some [⟨0, 0, 0, 16000⟩]
      ∧ classifyIdle defaultArgs [⟨0, 0, 0, 16000⟩] ≠ []
      ∧ Ev.out (alertMsg (idleIds
          (classifyIdle defaultArgs [⟨0, 0, 0, 16000⟩]))) ∈ c4Cycle.1
      ∧ Ev.bell ∈ c4Cycle.1) :=
  ⟨⟨by decide, by decide, rfl, rfl,
    (C4_stateless defaultArgs envEmpty c4Tels c4TelsB c4Mails c4Mails 1 2 0
      c4Cycle c4Cycle "0, 0, 0, 16000" [⟨0, 0, 0, 16000⟩]).1
      (by decide) (by decide) rfl rfl⟩,
   ⟨rfl, by decide, by decide,
    ((C4_stateless defaultArgs envEmpty c4Tels c4TelsB c4Mails c4Mails 1 2 0
      c4Cycle c4Cycle "0, 0, 0, 16000" [⟨0, 0, 0, 16000⟩]).2
      (by decide) rfl (by decide) (by decide)).1,
    ((C4_stateless defaultArgs envEmpty c4Tels c4TelsB c4Mails c4Mails 1 2 0
      c4Cycle c4Cycle "0, 0, 0, 16000" [⟨0, 0, 0, 16000⟩]).2
      (by decide) rfl (by decide) (by decide)).2⟩⟩
